import Mathlib

/-!
Shallow embedding of `lsst/ctrl/notify/notify.py` (class `Notify`) and proofs
about its watch registry and event decoding.

Python dicts are embedded as association lists with dict semantics: at most
one binding per key is observable through `dlookup` (insertion removes any
prior binding for the key).
-/

set_option autoImplicit false

/-- Lookup in an association list, mirroring Python `d[k]` / `k in d`. -/
def dlookup {α β : Type} [DecidableEq α] (d : List (α × β)) (k : α) : Option β :=
  match d with
  | [] => none
  | (k', v) :: rest => if k = k' then some v else dlookup rest k

/-- Removal of a key, mirroring Python `d.pop(k)` discarding the value. -/
def derase {α β : Type} [DecidableEq α] (d : List (α × β)) (k : α) : List (α × β) :=
  d.filter (fun e => decide (e.1 ≠ k))

/-- Insertion with overwrite, mirroring Python `d[k] = v`. -/
def dinsert {α β : Type} [DecidableEq α] (d : List (α × β)) (k : α) (v : β) :
    List (α × β) :=
  (k, v) :: derase d k

theorem derase_cons {α β : Type} [DecidableEq α] (a : α) (b : β)
    (rest : List (α × β)) (k : α) :
    derase ((a, b) :: rest) k =
      if a = k then derase rest k else (a, b) :: derase rest k := by
  by_cases h : a = k
  · rw [if_pos h]
    simp [derase, List.filter_cons, h]
  · rw [if_neg h]
    simp [derase, List.filter_cons, h]

theorem dlookup_cons {α β : Type} [DecidableEq α] (a : α) (b : β)
    (rest : List (α × β)) (k : α) :
    dlookup ((a, b) :: rest) k = if k = a then some b else dlookup rest k := rfl

theorem dlookup_derase {α β : Type} [DecidableEq α] (d : List (α × β)) (k k' : α) :
    dlookup (derase d k) k' = if k' = k then none else dlookup d k' := by
  induction d with
  | nil => simp [derase, dlookup]
  | cons e rest ih =>
    obtain ⟨a, b⟩ := e
    rw [derase_cons]
    by_cases hak : a = k <;> by_cases h1 : k' = k <;> by_cases h2 : k' = a <;>
      simp_all [dlookup_cons]

theorem dlookup_dinsert {α β : Type} [DecidableEq α] (d : List (α × β)) (k k' : α)
    (v : β) :
    dlookup (dinsert d k v) k' = if k' = k then some v else dlookup d k' := by
  by_cases h : k' = k
  · simp [dinsert, dlookup_cons, h]
  · rw [dinsert, dlookup_cons, if_neg h, dlookup_derase, if_neg h, if_neg h]

/-- State of a `Notify` session: the two registry dicts from `Notify.__init__`.
`paths` maps watch descriptors to paths (values are `Option String` because a
Python dict can in principle hold `None`, which `rmWatch` tests for); `watches`
maps paths to watch descriptors. -/
structure NotifyState where
  paths : List (Int × Option String)
  watches : List (String × Int)
deriving Repr, DecidableEq

/-- Fresh session as produced by `Notify.__init__`: both dicts empty. -/
def NotifyState.init : NotifyState := ⟨[], []⟩

/-- Embedding of `Notify.addWatch(path, mask)`.  The kernel collaborator call
`inotify_add_watch(self.fd, path.encode('utf-8'), mask)` is passed in as
`kres`: `.ok w` when it returns watch descriptor `w`, `.error e` when it fails
(its failure propagates before either dict assignment runs).  On success the
code runs `self.paths[watch] = path` and `self.watches[path] = watch`. -/
def addWatch (s : NotifyState) (path : String) (kres : Except String Int) :
    Except String NotifyState :=
  match kres with
  | .error e => .error e
  | .ok watch =>
      .ok { paths := dinsert s.paths watch (some path),
            watches := dinsert s.watches path watch }

/-- Embedding of `Notify.rmWatch(path)`.  The kernel collaborator call
`inotify_rm_watch(self.fd, watch)` is modelled as returning the status integer
`kret` (success or failure status; the code stores it in `ret` and never
branches on it).  Returns the final `(state, returned int)` or the raised
exception message. -/
def rmWatch (s : NotifyState) (path : String) (kret : Int) :
    Except String (NotifyState × Int) :=
  match dlookup s.watches path with
  | none => .error "watch descriptor not found for that path"
  | some watch =>
      let watches1 := derase s.watches path
      let ret := kret
      match dlookup s.paths watch with
      | none => .ok ({ paths := s.paths, watches := watches1 }, ret)
      | some p =>
          let paths1 := derase s.paths watch
          match p with
          | none => .ok ({ paths := paths1, watches := watches1 }, -1)
          | some _ => .ok ({ paths := paths1, watches := watches1 }, ret)

/-- Modelled from the spec: the fixed-size `RawEventHeader` of the missing
`inotifyEvent` module (`_InotifyEvent`): a WatchId, a bitmask of event kinds, a
cookie, and the length in bytes of the trailing name field, read directly off
the byte stream as four 32-bit little-endian fields (the WatchId signed). -/
structure RawHeader where
  wd : Int
  mask : Nat
  cookie : Nat
  length : Nat
deriving Repr, DecidableEq

/-- Modelled from the spec: `DecodedEvent` (the `InotifyEvent` value built by
the missing `inotifyEvent` module): the header fields plus an optional fully
qualified path, present only when a name was decoded. -/
structure InotifyEvent where
  header : RawHeader
  path : Option String
deriving Repr, DecidableEq

/-- Value of four little-endian bytes. -/
def readU32 (b0 b1 b2 b3 : Nat) : Nat :=
  b0 + 256 * b1 + 65536 * b2 + 16777216 * b3

/-- Reinterpretation of a 32-bit value as a signed `int` (the `wd` field). -/
def toI32 (n : Nat) : Int :=
  if n < 2147483648 then (n : Int) else (n : Int) - 4294967296

/-- Bytes of a 32-bit value, little endian. -/
def encodeU32 (n : Nat) : List Nat :=
  [n % 256, n / 256 % 256, n / 65536 % 256, n / 16777216 % 256]

/-- Byte encoding of a header whose WatchId is the 32-bit value `wd`. -/
def encodeHeader (wd mask cookie len : Nat) : List Nat :=
  encodeU32 wd ++ encodeU32 mask ++ encodeU32 cookie ++ encodeU32 len

/-- Header bytes as delivered by `readinto` into a zero-initialised struct:
whatever bytes were available, zero-padded to the struct size of 16. -/
def padHeader (l : List Nat) : List Nat :=
  (l ++ List.replicate 16 0).take 16

/-- Field extraction from the 16 header bytes. -/
def parseHeader (l : List Nat) : RawHeader :=
  { wd := toI32 (readU32 (l.getD 0 0) (l.getD 1 0) (l.getD 2 0) (l.getD 3 0)),
    mask := readU32 (l.getD 4 0) (l.getD 5 0) (l.getD 6 0) (l.getD 7 0),
    cookie := readU32 (l.getD 8 0) (l.getD 9 0) (l.getD 10 0) (l.getD 11 0),
    length := readU32 (l.getD 12 0) (l.getD 13 0) (l.getD 14 0) (l.getD 15 0) }

/-- Continuation byte test for UTF-8. -/
def utf8Cont (b : Nat) : Bool := 128 ≤ b && b < 192

/-- State machine for strict UTF-8 decoding: the second argument is `none`
when a lead byte is expected, and `some (cp, k, lo)` in the middle of a
multi-byte sequence, where `cp` is the code point accumulated so far, `k` the
number of continuation bytes still expected, and `lo` the smallest code point
the sequence may legally produce (the overlong-encoding bound).  At the end of
a sequence, overlong encodings, surrogates and values beyond U+10FFFF are
rejected, matching Python's strict decoder. -/
def utf8DecodeAux : List Nat → Option (Nat × Nat × Nat) → Option (List Char)
  | [], none => some []
  | [], some _ => none
  | b :: bs, none =>
    if b < 128 then
      (utf8DecodeAux bs none).map (fun cs => Char.ofNat b :: cs)
    else if b < 194 then none
    else if b < 224 then utf8DecodeAux bs (some (b - 192, 1, 128))
    else if b < 240 then utf8DecodeAux bs (some (b - 224, 2, 2048))
    else if b < 245 then utf8DecodeAux bs (some (b - 240, 3, 65536))
    else none
  | c :: bs, some (cp, k, lo) =>
    if utf8Cont c then
      match k with
      | 0 => none
      | 1 =>
        if lo ≤ cp * 64 + (c - 128) ∧
            ¬(55296 ≤ cp * 64 + (c - 128) ∧ cp * 64 + (c - 128) ≤ 57343) ∧
            cp * 64 + (c - 128) ≤ 1114111 then
          (utf8DecodeAux bs none).map (fun cs => Char.ofNat (cp * 64 + (c - 128)) :: cs)
        else none
      | Nat.succ (Nat.succ m) =>
          utf8DecodeAux bs (some (cp * 64 + (c - 128), Nat.succ m, lo))
    else none

/-- Strict UTF-8 decoding of a byte list into characters, as performed by
`bytes.decode('utf-8')`: `none` models a raised `UnicodeDecodeError`.  NUL
bytes are valid and decode to the NUL character; nothing is trimmed. -/
def utf8Decode (bs : List Nat) : Option (List Char) :=
  utf8DecodeAux bs none

/-- Test whether a string starts with the path separator. -/
def startsWithSlash (s : String) : Bool :=
  match s.data with
  | [] => false
  | c :: _ => c = '/'

/-- Test whether a string ends with the path separator. -/
def endsWithSlash (s : String) : Bool :=
  match s.data.getLast? with
  | some c => c = '/'
  | none => false

/-- Embedding of `os.path.join(a, b)` for two POSIX components as used in
`readEvent`: an absolute second component wins; otherwise the components are
joined, inserting a separator unless the first is empty or already ends in
one. -/
def pathJoin (a b : String) : String :=
  if startsWithSlash b then b
  else if a = "" || endsWithSlash a then a ++ b
  else a ++ "/" ++ b

/-- Embedding of the body of `Notify.readEvent` after `select` reported the
descriptor ready: `readinto` the 16 header bytes (`val == 0`, i.e. an empty
stream, yields `None`), then, when `event.length > 0`, `read` that many bytes
(fewer if fewer remain), decode them as UTF-8, look the WatchId up in
`self.paths` (a missing key raises `KeyError`; a stored `None` makes
`os.path.join` raise `TypeError`) and join.  Returns the produced value and
the remaining stream, or the raised exception. -/
def decodeEvent (s : NotifyState) (stream : List Nat) :
    Except String (Option InotifyEvent × List Nat) :=
  if stream.isEmpty then .ok (none, stream)
  else
    let event := parseHeader (padHeader (stream.take 16))
    let rest := stream.drop 16
    if event.length > 0 then
      let nameBytes := rest.take event.length
      match utf8Decode nameBytes with
      | none => .error "UnicodeDecodeError"
      | some cs =>
        match dlookup s.paths event.wd with
        | none => .error "KeyError"
        | some pv =>
          match pv with
          | none => .error "TypeError"
          | some path =>
              .ok (some ⟨event, some (pathJoin path (String.mk cs))⟩,
                   rest.drop event.length)
    else
      .ok (some ⟨event, none⟩, rest)

/-- Modelled from the spec: readiness semantics of the external
`select.select([fd], [], [], timeout)` wait, over a stream split into the
bytes pending now and the bytes that only arrive later.  A timeout of `none`
models Python `None` (wait indefinitely: ready as soon as any data ever
arrives), `some 0` polls without blocking (ready only on pending data), and a
positive timeout is ready when data is pending or arrives within the wait
budget (`arrivesWithin`). -/
def selectReady (pending future : List Nat) (arrivesWithin : Nat → Bool) :
    Option Nat → Bool
  | none => !pending.isEmpty || !future.isEmpty
  | some 0 => !pending.isEmpty
  | some (t + 1) => !pending.isEmpty || (!future.isEmpty && arrivesWithin (t + 1))

/-- Embedding of `Notify.readEvent(timeout=0)`: wait for readiness with the
given timeout (whose default value in the code is `0`), return `None` when the
wait reports nothing, otherwise decode one record from the stream. -/
def readEvent (s : NotifyState) (pending future : List Nat)
    (arrivesWithin : Nat → Bool) (timeout : Option Nat := some 0) :
    Except String (Option InotifyEvent × List Nat) :=
  if selectReady pending future arrivesWithin timeout then
    decodeEvent s (pending ++ future)
  else
    .ok (none, pending ++ future)

theorem readU32_encodeU32 (n : Nat) (h : n < 4294967296) :
    readU32 (n % 256) (n / 256 % 256) (n / 65536 % 256) (n / 16777216 % 256) = n := by
  unfold readU32
  omega

theorem parseHeader_encodeHeader (wd mask cookie len : Nat)
    (h1 : wd < 4294967296) (h2 : mask < 4294967296)
    (h3 : cookie < 4294967296) (h4 : len < 4294967296) :
    parseHeader (encodeHeader wd mask cookie len) =
      { wd := toI32 wd, mask := mask, cookie := cookie, length := len } := by
  show RawHeader.mk
      (toI32 (readU32 (wd % 256) (wd / 256 % 256) (wd / 65536 % 256) (wd / 16777216 % 256)))
      (readU32 (mask % 256) (mask / 256 % 256) (mask / 65536 % 256) (mask / 16777216 % 256))
      (readU32 (cookie % 256) (cookie / 256 % 256) (cookie / 65536 % 256) (cookie / 16777216 % 256))
      (readU32 (len % 256) (len / 256 % 256) (len / 65536 % 256) (len / 16777216 % 256)) = _
  rw [readU32_encodeU32 wd h1, readU32_encodeU32 mask h2,
    readU32_encodeU32 cookie h3, readU32_encodeU32 len h4]

set_option maxHeartbeats 2000000 in
theorem utf8Decode_ascii (bs : List Nat) (h : ∀ b ∈ bs, b < 128) :
    utf8Decode bs = some (bs.map Char.ofNat) := by
  induction bs with
  | nil => rfl
  | cons b rest ih =>
    have hb : b < 128 := h b (List.mem_cons_self b rest)
    have hr := ih (fun x hx => h x (List.mem_cons_of_mem b hx))
    unfold utf8Decode at hr ⊢
    rw [utf8DecodeAux, if_pos hb, hr]
    rfl

theorem readEvent_pending_decodes (s : NotifyState) (st : List Nat)
    (aw : Nat → Bool) (h : st ≠ []) :
    readEvent s st [] aw = decodeEvent s st := by
  unfold readEvent
  rw [List.append_nil, if_pos]
  cases st with
  | nil => exact absurd rfl h
  | cons b rest => rfl

theorem decodeEvent_header (s : NotifyState) (wd mask cookie len : Nat)
    (nb : List Nat)
    (h1 : wd < 4294967296) (h2 : mask < 4294967296)
    (h3 : cookie < 4294967296) (h4 : len < 4294967296) :
    decodeEvent s (encodeHeader wd mask cookie len ++ nb) =
      if 0 < len then
        match utf8Decode (nb.take len) with
        | none => .error "UnicodeDecodeError"
        | some cs =>
          match dlookup s.paths (toI32 wd) with
          | none => .error "KeyError"
          | some pv =>
            match pv with
            | none => .error "TypeError"
            | some path =>
                .ok (some ⟨⟨toI32 wd, mask, cookie, len⟩,
                           some (pathJoin path (String.mk cs))⟩,
                     nb.drop len)
      else
        .ok (some ⟨⟨toI32 wd, mask, cookie, len⟩, none⟩, nb) := by
  unfold decodeEvent
  have hne : (encodeHeader wd mask cookie len ++ nb).isEmpty = false := rfl
  have htake : (encodeHeader wd mask cookie len ++ nb).take 16 =
      encodeHeader wd mask cookie len := rfl
  have hdrop : (encodeHeader wd mask cookie len ++ nb).drop 16 = nb := rfl
  have hpad : padHeader (encodeHeader wd mask cookie len) =
      encodeHeader wd mask cookie len := rfl
  rw [hne, htake, hdrop, hpad,
    parseHeader_encodeHeader wd mask cookie len h1 h2 h3 h4]
  rfl

/-- Registry invariant stated by the spec: the two dicts are exact inverses of
each other — an entry `(w, p)` is in `paths` exactly when `(p, w)` is in
`watches` — with no orphaned entry in either direction (in particular no
`None` value ever stored in `paths`). -/
def Inverse (s : NotifyState) : Prop :=
  (∀ w p, dlookup s.paths w = some (some p) ↔ dlookup s.watches p = some w) ∧
  (∀ w, dlookup s.paths w ≠ some none)

/-- One registry call against the session: `add p w` is `addWatch(p, mask)`
with the kernel returning watch descriptor `w`, `remove p k` is `rmWatch(p)`
with the kernel remove call returning status `k`. -/
inductive RegistryOp where
  | add (path : String) (wd : Int)
  | remove (path : String) (kret : Int)
deriving Repr, DecidableEq

/-- Application of one call to the session state.  A raised exception leaves
the state unchanged, as in the Python code, where both raising branches run
before any dict mutation. -/
def applyOp (s : NotifyState) : RegistryOp → NotifyState
  | .add p w =>
      match addWatch s p (.ok w) with
      | .ok s1 => s1
      | .error _ => s
  | .remove p k =>
      match rmWatch s p k with
      | .ok r => r.1
      | .error _ => s

/-- State after a sequence of registry calls. -/
def runOps (s : NotifyState) (ops : List RegistryOp) : NotifyState :=
  ops.foldl applyOp s

/-- Freshness discipline under which the invariant is preserved: an `add` must
use a path not currently registered and a watch descriptor not currently live
(a real kernel returns a fresh descriptor for a fresh path); removals are
unrestricted. -/
def validOp (s : NotifyState) : RegistryOp → Prop
  | .add p w => dlookup s.watches p = none ∧ dlookup s.paths w = none
  | .remove _ _ => True

/-- Every call of the sequence is valid at the state where it runs. -/
def validOps : NotifyState → List RegistryOp → Prop
  | _, [] => True
  | s, op :: rest => validOp s op ∧ validOps (applyOp s op) rest

theorem applyOp_add_eq (s : NotifyState) (p : String) (w : Int) :
    applyOp s (.add p w) =
      ⟨dinsert s.paths w (some p), dinsert s.watches p w⟩ := rfl

theorem applyOp_remove_notfound (s : NotifyState) (p : String) (k : Int)
    (hw : dlookup s.watches p = none) :
    applyOp s (.remove p k) = s := by
  simp only [applyOp, rmWatch, hw]

theorem applyOp_remove_found (s : NotifyState) (p : String) (k w : Int)
    (hw : dlookup s.watches p = some w)
    (hpw : dlookup s.paths w = some (some p)) :
    applyOp s (.remove p k) = ⟨derase s.paths w, derase s.watches p⟩ := by
  simp only [applyOp, rmWatch, hw, hpw]

theorem Inverse_init : Inverse NotifyState.init := by
  constructor
  · intro w p
    simp [NotifyState.init, dlookup]
  · intro w
    simp [NotifyState.init, dlookup]

theorem Inverse_applyOp (s : NotifyState) (op : RegistryOp)
    (hs : Inverse s) (hv : validOp s op) : Inverse (applyOp s op) := by
  cases op with
  | add p w =>
    obtain ⟨hfp, hfw⟩ := hv
    rw [applyOp_add_eq]
    constructor
    · intro w' p'
      show dlookup (dinsert s.paths w (some p)) w' = some (some p') ↔
        dlookup (dinsert s.watches p w) p' = some w'
      rw [dlookup_dinsert, dlookup_dinsert]
      by_cases hw : w' = w <;> by_cases hp : p' = p
      · rw [hw, hp, if_pos rfl, if_pos rfl]
        simp
      · rw [hw, if_pos rfl, if_neg hp]
        constructor
        · intro hx
          injection hx with hx
          injection hx with hx
          exact absurd hx.symm hp
        · intro hx
          have h2 := (hs.1 w p').mpr hx
          rw [hfw] at h2
          exact Option.noConfusion h2
      · rw [hp, if_neg hw, if_pos rfl]
        constructor
        · intro hx
          have h2 := (hs.1 w' p).mp hx
          rw [hfp] at h2
          exact Option.noConfusion h2
        · intro hx
          injection hx with hx
          exact absurd hx.symm hw
      · rw [if_neg hw, if_neg hp]
        exact hs.1 w' p'
    · intro w'
      show dlookup (dinsert s.paths w (some p)) w' ≠ some none
      rw [dlookup_dinsert]
      by_cases hw : w' = w
      · rw [if_pos hw]
        intro hx
        injection hx with hx
        exact Option.noConfusion hx
      · rw [if_neg hw]
        exact hs.2 w'
  | remove p k =>
    cases hw : dlookup s.watches p with
    | none => rw [applyOp_remove_notfound s p k hw]; exact hs
    | some w =>
      have hpw : dlookup s.paths w = some (some p) := (hs.1 w p).mpr hw
      rw [applyOp_remove_found s p k w hw hpw]
      constructor
      · intro w' p'
        show dlookup (derase s.paths w) w' = some (some p') ↔
          dlookup (derase s.watches p) p' = some w'
        rw [dlookup_derase, dlookup_derase]
        by_cases hw' : w' = w <;> by_cases hp' : p' = p
        · rw [if_pos hw', if_pos hp']
          simp
        · rw [hw', if_pos rfl, if_neg hp']
          constructor
          · intro hx
            exact Option.noConfusion hx
          · intro hx
            have h2 := (hs.1 w p').mpr hx
            rw [hpw] at h2
            injection h2 with h2
            injection h2 with h2
            exact absurd h2.symm hp'
        · rw [hp', if_neg hw', if_pos rfl]
          constructor
          · intro hx
            have h2 := (hs.1 w' p).mp hx
            rw [hw] at h2
            injection h2 with h2
            exact absurd h2 (fun hww => hw' hww.symm)
          · intro hx
            exact Option.noConfusion hx
        · rw [if_neg hw', if_neg hp']
          exact hs.1 w' p'
      · intro w'
        show dlookup (derase s.paths w) w' ≠ some none
        rw [dlookup_derase]
        by_cases hw' : w' = w
        · rw [if_pos hw']
          exact fun hx => Option.noConfusion hx
        · rw [if_neg hw']
          exact hs.2 w'

theorem Inverse_runOps_take (ops : List RegistryOp) (s : NotifyState)
    (hs : Inverse s) (hv : validOps s ops) (n : Nat) :
    Inverse (runOps s (ops.take n)) := by
  induction ops generalizing s n with
  | nil =>
    rw [List.take_nil]
    exact hs
  | cons op rest ih =>
    cases n with
    | zero => exact hs
    | succ m =>
      rw [List.take_succ_cons]
      exact ih (applyOp s op) (Inverse_applyOp s op hs hv.1) hv.2 m

/-- Claim C1 (amended): for sequences of addWatch/rmWatch calls in which every
addWatch uses a path not currently registered and a watch identifier not
currently live, the Path→WatchId and WatchId→Path dicts are exact inverses at
every point.  As stated — with arbitrary kernel-returned identifiers — the
claim is false: re-adding a registered path under a fresh identifier leaves an
orphaned WatchId→Path entry (see the counterexample). -/
theorem registry_inverse_invariant (ops : List RegistryOp)
    (hv : validOps NotifyState.init ops) (n : Nat) :
    Inverse (runOps NotifyState.init (ops.take n)) :=
  Inverse_runOps_take ops NotifyState.init Inverse_init hv n

/-- Witness for C1: a concrete valid sequence, with the invariant at its end
obtained from the theorem. -/
theorem registry_inverse_invariant_witness :
    validOps NotifyState.init [RegistryOp.add "a" 1, RegistryOp.remove "a" 0] ∧
    Inverse (runOps NotifyState.init
      ([RegistryOp.add "a" 1, RegistryOp.remove "a" 0].take 2)) :=
  ⟨⟨⟨rfl, rfl⟩, trivial, trivial⟩,
   registry_inverse_invariant [RegistryOp.add "a" 1, RegistryOp.remove "a" 0]
     ⟨⟨rfl, rfl⟩, trivial, trivial⟩ 2⟩

/-- Counterexample to C1 as stated: with arbitrary kernel-returned
identifiers, the sequence addWatch("a")→1, addWatch("a")→2 leaves the orphaned
entry 1 ↦ "a" in `paths` while `watches` maps "a" to 2, so the two dicts are
not inverses. -/
theorem registry_inverse_counterexample :
    ¬ Inverse (runOps NotifyState.init
      [RegistryOp.add "a" 1, RegistryOp.add "a" 2]) := by
  intro hinv
  have h1 : dlookup (runOps NotifyState.init
      [RegistryOp.add "a" 1, RegistryOp.add "a" 2]).paths 1 = some (some "a") := by
    decide
  have h2 : dlookup (runOps NotifyState.init
      [RegistryOp.add "a" 1, RegistryOp.add "a" 2]).watches "a" = some 2 := by
    decide
  have h3 := (hinv.1 1 "a").mp h1
  rw [h2] at h3
  injection h3 with h3
  exact absurd h3 (by decide)

/-- Claim C6 (amended): calling addWatch again on a registered path makes the
path resolve to the most recent identifier, but when the new identifier
differs from the old one the old identifier remains resolvable in the
WatchId→Path dict (its entry is not removed).  As stated — "the old identifier
is no longer resolvable" — the claim is false (see the counterexample). -/
theorem addWatch_reregister (s : NotifyState) (p : String) (w w' : Int)
    (_hw : dlookup s.watches p = some w)
    (hpw : dlookup s.paths w = some (some p)) (hne : w ≠ w') :
    ∃ s', addWatch s p (.ok w') = .ok s' ∧
      dlookup s'.watches p = some w' ∧ dlookup s'.paths w = some (some p) := by
  refine ⟨_, rfl, ?_, ?_⟩
  · rw [dlookup_dinsert, if_pos rfl]
  · rw [dlookup_dinsert, if_neg hne]
    exact hpw

/-- Witness for C6: the session watching "a" under identifier 1, re-registered
with identifier 2. -/
theorem addWatch_reregister_witness :
    dlookup (⟨[(1, some "a")], [("a", 1)]⟩ : NotifyState).watches "a" = some 1 ∧
    dlookup (⟨[(1, some "a")], [("a", 1)]⟩ : NotifyState).paths 1 = some (some "a") ∧
    (1 : Int) ≠ 2 ∧
    (∃ s', addWatch (⟨[(1, some "a")], [("a", 1)]⟩ : NotifyState) "a" (.ok 2) = .ok s' ∧
      dlookup s'.watches "a" = some 2 ∧ dlookup s'.paths 1 = some (some "a")) :=
  ⟨by decide, by decide, by decide,
   addWatch_reregister (⟨[(1, some "a")], [("a", 1)]⟩ : NotifyState) "a" 1 2
     (by decide) (by decide) (by decide)⟩

/-- Counterexample to C6 as stated: after addWatch("a")→1 then addWatch("a")→2
the old identifier 1 still resolves to "a" in the WatchId→Path dict. -/
theorem addWatch_reregister_counterexample :
    dlookup (runOps NotifyState.init
        [RegistryOp.add "a" 1, RegistryOp.add "a" 2]).watches "a" = some 2 ∧
    dlookup (runOps NotifyState.init
        [RegistryOp.add "a" 1, RegistryOp.add "a" 2]).paths 1 = some (some "a") := by
  decide

/-- Claim C7: rmWatch on a path absent from the Path→WatchId dict raises
("watch descriptor not found for that path", the exception the spec calls
UnknownWatchError) before any mutation: no new state is produced, so both
dicts are untouched. -/
theorem rmWatch_unknown_path (s : NotifyState) (p : String) (kret : Int)
    (h : dlookup s.watches p = none) :
    rmWatch s p kret = .error "watch descriptor not found for that path" := by
  simp only [rmWatch, h]

/-- Witness for C7: removing a never-registered path from a fresh session. -/
theorem rmWatch_unknown_path_witness :
    dlookup NotifyState.init.watches "x" = none ∧
    rmWatch NotifyState.init "x" 0 =
      .error "watch descriptor not found for that path" :=
  ⟨rfl, rmWatch_unknown_path NotifyState.init "x" 0 rfl⟩

/-- Claim C8: rmWatch on a registered path deletes both the Path→WatchId and
the WatchId→Path entry whatever status integer the kernel remove call
returns, and only then hands that status (reporting any failure) back to the
caller. -/
theorem rmWatch_cleanup_unconditional (s : NotifyState) (p : String)
    (w kret : Int) (hw : dlookup s.watches p = some w) :
    ∃ s' r, rmWatch s p kret = .ok (s', r) ∧
      dlookup s'.watches p = none ∧ dlookup s'.paths w = none ∧
      (dlookup s.paths w ≠ some none → r = kret) := by
  simp only [rmWatch, hw]
  cases hpw : dlookup s.paths w with
  | none =>
    refine ⟨_, _, rfl, ?_, ?_, ?_⟩
    · rw [dlookup_derase, if_pos rfl]
    · exact hpw
    · intro _
      rfl
  | some pv =>
    cases pv with
    | none =>
      refine ⟨_, _, rfl, ?_, ?_, ?_⟩
      · rw [dlookup_derase, if_pos rfl]
      · rw [dlookup_derase, if_pos rfl]
      · intro hcon
        exact absurd rfl hcon
    | some q =>
      refine ⟨_, _, rfl, ?_, ?_, ?_⟩
      · rw [dlookup_derase, if_pos rfl]
      · rw [dlookup_derase, if_pos rfl]
      · intro _
        rfl

/-- Witness for C8: removing "a" while the kernel call reports failure
status -1 still clears both dicts. -/
theorem rmWatch_cleanup_unconditional_witness :
    dlookup (⟨[(1, some "a")], [("a", 1)]⟩ : NotifyState).watches "a" = some 1 ∧
    (∃ s' r, rmWatch (⟨[(1, some "a")], [("a", 1)]⟩ : NotifyState) "a" (-1) = .ok (s', r) ∧
      dlookup s'.watches "a" = none ∧ dlookup s'.paths 1 = none ∧
      (dlookup (⟨[(1, some "a")], [("a", 1)]⟩ : NotifyState).paths 1 ≠ some none → r = -1)) :=
  ⟨by decide,
   rmWatch_cleanup_unconditional (⟨[(1, some "a")], [("a", 1)]⟩ : NotifyState)
     "a" 1 (-1) (by decide)⟩

/-- Session state after a failed addWatch as the Python caller observes it:
the exception propagates and the object keeps its previous dicts. -/
def addWatchOrKeep (s : NotifyState) (p : String) (kres : Except String Int) :
    NotifyState :=
  match addWatch s p kres with
  | .ok s1 => s1
  | .error _ => s

/-- Claim C9: when the kernel add-watch call fails, addWatch fails carrying
the underlying cause, and the registry is not mutated: the failure propagates
before either dict assignment runs. -/
theorem addWatch_failure_no_mutation (s : NotifyState) (p e : String) :
    addWatch s p (.error e) = .error e ∧ addWatchOrKeep s p (.error e) = s :=
  ⟨rfl, rfl⟩

/-- Claim C10: on a registered path, rmWatch returns an integer — the kernel
remove call's status — except that it returns the sentinel -1 when the
WatchId→Path dict held None for the removed identifier. -/
theorem rmWatch_return_status (s : NotifyState) (p : String) (w kret : Int)
    (hw : dlookup s.watches p = some w) :
    ∃ s', rmWatch s p kret =
      .ok (s', if dlookup s.paths w = some none then -1 else kret) := by
  simp only [rmWatch, hw]
  cases hpw : dlookup s.paths w with
  | none =>
    refine ⟨⟨s.paths, derase s.watches p⟩, ?_⟩
    rw [if_neg (by simp)]
  | some pv =>
    cases pv with
    | none =>
      refine ⟨⟨derase s.paths w, derase s.watches p⟩, ?_⟩
      rw [if_pos rfl]
    | some q =>
      refine ⟨⟨derase s.paths w, derase s.watches p⟩, ?_⟩
      rw [if_neg (by simp)]

/-- Witness for C10: a registry whose WatchId→Path dict holds None for
identifier 5 makes rmWatch return the sentinel -1 instead of the kernel
status 7. -/
theorem rmWatch_return_status_witness :
    dlookup (⟨[(5, none)], [("a", 5)]⟩ : NotifyState).watches "a" = some 5 ∧
    (∃ s', rmWatch (⟨[(5, none)], [("a", 5)]⟩ : NotifyState) "a" 7 =
      .ok (s', if dlookup (⟨[(5, none)], [("a", 5)]⟩ : NotifyState).paths 5 = some none
               then -1 else 7)) :=
  ⟨by decide,
   rmWatch_return_status (⟨[(5, none)], [("a", 5)]⟩ : NotifyState) "a" 5 7 (by decide)⟩

theorem encodeHeader_ne_nil (wd mask cookie len : Nat) (nb : List Nat) :
    encodeHeader wd mask cookie len ++ nb ≠ [] :=
  List.cons_ne_nil _ _

theorem readEvent_named_payload (s : NotifyState) (base : String)
    (wd mask cookie len : Nat) (nb : List Nat) (aw : Nat → Bool)
    (h1 : wd < 4294967296) (h2 : mask < 4294967296) (h3 : cookie < 4294967296)
    (h4 : len < 4294967296) (hlen : 0 < len)
    (hascii : ∀ b ∈ nb, b < 128)
    (hreg : dlookup s.paths (toI32 wd) = some (some base)) :
    readEvent s (encodeHeader wd mask cookie len ++ nb) [] aw =
      .ok (some ⟨⟨toI32 wd, mask, cookie, len⟩,
                 some (pathJoin base (String.mk ((nb.take len).map Char.ofNat)))⟩,
           nb.drop len) := by
  rw [readEvent_pending_decodes s _ aw (encodeHeader_ne_nil wd mask cookie len nb),
    decodeEvent_header s wd mask cookie len nb h1 h2 h3 h4,
    if_pos hlen,
    utf8Decode_ascii _ (fun b hb => hascii b (List.take_subset _ _ hb)),
    hreg]

/-- Claim C2 (amended): a record whose WatchId is absent from the registry is
still returned, without a resolved path, when its name-length is zero (the
overflow/ignored-event shapes); but when the record carries a nonzero
name-length payload, the lookup `self.paths[event.wd]` raises `KeyError`, so
the claim as stated is false for named records (see the counterexample). -/
theorem readEvent_unresolved_watch (s : NotifyState) (wd mask cookie : Nat)
    (aw : Nat → Bool)
    (h1 : wd < 4294967296) (h2 : mask < 4294967296) (h3 : cookie < 4294967296)
    (hreg : dlookup s.paths (toI32 wd) = none) :
    readEvent s (encodeHeader wd mask cookie 0) [] aw =
      .ok (some ⟨⟨toI32 wd, mask, cookie, 0⟩, none⟩, []) ∧
    (∀ len nb, 0 < len → len < 4294967296 → (∀ b ∈ nb, b < 128) →
      readEvent s (encodeHeader wd mask cookie len ++ nb) [] aw =
        .error "KeyError") := by
  constructor
  · have he : encodeHeader wd mask cookie 0 = encodeHeader wd mask cookie 0 ++ [] :=
      (List.append_nil _).symm
    rw [he, readEvent_pending_decodes s _ aw (encodeHeader_ne_nil wd mask cookie 0 []),
      decodeEvent_header s wd mask cookie 0 [] h1 h2 h3 (by omega)]
    rfl
  · intro len nb hlen h4 hascii
    rw [readEvent_pending_decodes s _ aw (encodeHeader_ne_nil wd mask cookie len nb),
      decodeEvent_header s wd mask cookie len nb h1 h2 h3 h4,
      if_pos hlen,
      utf8Decode_ascii _ (fun b hb => hascii b (List.take_subset _ _ hb)),
      hreg]

/-- Witness for C2: an unregistered WatchId 9 with a nameless record on a
fresh session. -/
theorem readEvent_unresolved_watch_witness :
    dlookup NotifyState.init.paths (toI32 9) = none ∧
    (readEvent NotifyState.init (encodeHeader 9 16 0 0) [] (fun _ => false) =
        .ok (some ⟨⟨toI32 9, 16, 0, 0⟩, none⟩, []) ∧
     (∀ len nb, 0 < len → len < 4294967296 → (∀ b ∈ nb, b < 128) →
       readEvent NotifyState.init (encodeHeader 9 16 0 len ++ nb) [] (fun _ => false) =
         .error "KeyError")) :=
  ⟨rfl, readEvent_unresolved_watch NotifyState.init 9 16 0 (fun _ => false)
    (by decide) (by decide) (by decide) rfl⟩

/-- Counterexample to C2 as stated: a record with unregistered WatchId 7 and a
nonzero name payload makes readEvent raise KeyError instead of returning the
event. -/
theorem readEvent_unresolved_watch_counterexample :
    readEvent NotifyState.init
        (encodeHeader 7 256 0 4 ++ [97, 98, 99, 0]) [] (fun _ => false) =
      .error "KeyError" := by
  rfl

/-- Claim C3 (amended): a short name payload (fewer bytes available than the
header declares) is not detected: readEvent consumes all remaining bytes and
returns an event built from the truncated name.  As stated — "decoding fails
with a FramingError" — the claim is false: no framing check exists in the code
(see the counterexample, where decoding succeeds). -/
theorem readEvent_short_payload (s : NotifyState) (base : String)
    (wd mask cookie len : Nat) (nb : List Nat) (aw : Nat → Bool)
    (h1 : wd < 4294967296) (h2 : mask < 4294967296) (h3 : cookie < 4294967296)
    (h4 : len < 4294967296) (hlen : 0 < len) (hshort : nb.length < len)
    (hascii : ∀ b ∈ nb, b < 128)
    (hreg : dlookup s.paths (toI32 wd) = some (some base)) :
    readEvent s (encodeHeader wd mask cookie len ++ nb) [] aw =
      .ok (some ⟨⟨toI32 wd, mask, cookie, len⟩,
                 some (pathJoin base (String.mk (nb.map Char.ofNat)))⟩,
           []) := by
  rw [readEvent_named_payload s base wd mask cookie len nb aw h1 h2 h3 h4 hlen
      hascii hreg,
    List.take_of_length_le (le_of_lt hshort),
    List.drop_eq_nil_of_le (le_of_lt hshort)]

/-- Witness for C3: header declaring 8 name bytes with only the 3 bytes "foo"
available. -/
theorem readEvent_short_payload_witness :
    (0 : Nat) < 8 ∧ ([102, 111, 111] : List Nat).length < 8 ∧
    (∀ b ∈ ([102, 111, 111] : List Nat), b < 128) ∧
    dlookup (⟨[(1, some "base")], [("base", 1)]⟩ : NotifyState).paths (toI32 1) =
      some (some "base") ∧
    readEvent (⟨[(1, some "base")], [("base", 1)]⟩ : NotifyState)
        (encodeHeader 1 256 0 8 ++ [102, 111, 111]) [] (fun _ => false) =
      .ok (some ⟨⟨toI32 1, 256, 0, 8⟩,
                 some (pathJoin "base"
                   (String.mk (([102, 111, 111] : List Nat).map Char.ofNat)))⟩,
           []) :=
  ⟨by decide, by decide, by decide, by decide,
   readEvent_short_payload (⟨[(1, some "base")], [("base", 1)]⟩ : NotifyState)
     "base" 1 256 0 8 [102, 111, 111] (fun _ => false)
     (by decide) (by decide) (by decide) (by decide) (by decide) (by decide)
     (by decide) (by decide)⟩

/-- Counterexample to C3 as stated: with 8 declared name bytes but only "foo"
remaining, decoding succeeds with the truncated name — no FramingError (and no
failure at all) occurs. -/
theorem readEvent_short_payload_counterexample :
    readEvent (⟨[(1, some "base")], [("base", 1)]⟩ : NotifyState)
        (encodeHeader 1 256 0 8 ++ [102, 111, 111]) [] (fun _ => false) =
      .ok (some ⟨⟨1, 256, 0, 8⟩,
                 some (String.mk ['b', 'a', 's', 'e', '/', 'f', 'o', 'o'])⟩,
           []) := by
  rfl

/-- Claim C4 (amended): the name bytes are decoded as UTF-8 but the trailing
NUL padding is NOT trimmed: the event's path is the join of the watched path
with the name including its padding.  As stated — "trailing padding is
trimmed" — the claim is false (see the counterexample). -/
theorem readEvent_untrimmed_name (s : NotifyState) (base : String)
    (wd mask cookie len : Nat) (nb : List Nat) (aw : Nat → Bool)
    (h1 : wd < 4294967296) (h2 : mask < 4294967296) (h3 : cookie < 4294967296)
    (h4 : len < 4294967296) (hlen : 0 < len) (hexact : nb.length = len)
    (hascii : ∀ b ∈ nb, b < 128)
    (hreg : dlookup s.paths (toI32 wd) = some (some base)) :
    readEvent s (encodeHeader wd mask cookie len ++ nb) [] aw =
      .ok (some ⟨⟨toI32 wd, mask, cookie, len⟩,
                 some (pathJoin base (String.mk (nb.map Char.ofNat)))⟩,
           []) := by
  rw [readEvent_named_payload s base wd mask cookie len nb aw h1 h2 h3 h4 hlen
      hascii hreg,
    List.take_of_length_le (le_of_eq hexact),
    List.drop_eq_nil_of_le (le_of_eq hexact)]

/-- Witness for C4: the declared 8 name bytes, "foo.txt" followed by one NUL
padding byte. -/
theorem readEvent_untrimmed_name_witness :
    (0 : Nat) < 8 ∧ ([102, 111, 111, 46, 116, 120, 116, 0] : List Nat).length = 8 ∧
    (∀ b ∈ ([102, 111, 111, 46, 116, 120, 116, 0] : List Nat), b < 128) ∧
    dlookup (⟨[(1, some "base")], [("base", 1)]⟩ : NotifyState).paths (toI32 1) =
      some (some "base") ∧
    readEvent (⟨[(1, some "base")], [("base", 1)]⟩ : NotifyState)
        (encodeHeader 1 256 0 8 ++ [102, 111, 111, 46, 116, 120, 116, 0]) []
        (fun _ => false) =
      .ok (some ⟨⟨toI32 1, 256, 0, 8⟩,
                 some (pathJoin "base"
                   (String.mk (([102, 111, 111, 46, 116, 120, 116, 0] : List Nat).map
                     Char.ofNat)))⟩,
           []) :=
  ⟨by decide, by decide, by decide, by decide,
   readEvent_untrimmed_name (⟨[(1, some "base")], [("base", 1)]⟩ : NotifyState)
     "base" 1 256 0 8 [102, 111, 111, 46, 116, 120, 116, 0] (fun _ => false)
     (by decide) (by decide) (by decide) (by decide) (by decide) (by decide)
     (by decide) (by decide)⟩

/-- Counterexample to C4 as stated: the payload "foo.txt" plus NUL padding
yields the path "base/foo.txt\x00" (padding kept), not "base/foo.txt". -/
theorem readEvent_untrimmed_name_counterexample :
    readEvent (⟨[(1, some "base")], [("base", 1)]⟩ : NotifyState)
        (encodeHeader 1 256 0 8 ++ [102, 111, 111, 46, 116, 120, 116, 0]) []
        (fun _ => false) =
      .ok (some ⟨⟨1, 256, 0, 8⟩,
                 some (String.mk ['b', 'a', 's', 'e', '/', 'f', 'o', 'o', '.',
                                  't', 'x', 't', Char.ofNat 0])⟩,
           []) ∧
    String.mk ['b', 'a', 's', 'e', '/', 'f', 'o', 'o', '.', 't', 'x', 't',
               Char.ofNat 0] ≠ "base/foo.txt" := by
  constructor
  · rfl
  · decide

/-- Claim C5 (code/docstring mismatch): the default value of readEvent's
timeout parameter is 0, which polls without blocking — readEvent() with no
pending data returns None immediately even though data arrives later — while
an indefinite wait (Python select timeout None) would decode that record.
The function's own docstring says the default blocks until data is
available. -/
theorem readEvent_default_timeout_polls :
    readEvent NotifyState.init [] (encodeHeader 1 256 0 0) (fun _ => true) =
      .ok (none, encodeHeader 1 256 0 0) ∧
    readEvent NotifyState.init [] (encodeHeader 1 256 0 0) (fun _ => true) none =
      .ok (some ⟨⟨1, 256, 0, 0⟩, none⟩, []) := by
  constructor
  · rfl
  · rfl
